import Mathlib

/-!
Verification of the GoClouds scene renderer (main.go) against its
natural-language specification.

The per-tick state machine (`Game.Update`, `Game.updateTreeCount`, the shadow
cache check inside `Game.drawTree`, and the state effect of `Game.Draw`) is
embedded over `ℚ`: the Go code uses `float64` only through field operations,
`min`/`max` and comparisons in these paths, so the embedding is exact and
fully computable.  The light-model geometry (`calcTreeLighting`'s companion
`sunlightFactor` in `drawCloud`, and the shadow-length computation in
`drawTree`) uses `math.Sqrt`, `math.Atan2` and `math.Sin`; that part is
embedded over `ℝ`.
-/

set_option maxHeartbeats 1000000
set_option maxRecDepth 2000

namespace GoClouds

/-- Screen width constant from main.go (`screenWidth = 800`). -/
def screenWidth : ℚ := 800

/-- Screen height constant from main.go (`screenHeight = 600`). -/
def screenHeight : ℚ := 600

/-- Radius of the draggable sun glyph (`sunRadius = 40`). -/
def sunRadius : ℚ := 40

/-- Height of the ground band (`groundHeight = 150`). -/
def groundHeight : ℚ := 150

/-- Isometric ground offset (`groundOffset = 20`). -/
def groundOffset : ℚ := 20

/-- A drifting cloud particle (`type Cloud`). -/
structure Cloud where
  x : ℚ
  y : ℚ
  speed : ℚ
  size : ℚ
  opacity : ℚ
deriving DecidableEq

/-- The cached shadow artifact of a tree.  In the Go code `tree.shadow` is an
offscreen `*ebiten.Image` whose pixels are produced by the rasterization loop
in `Game.drawTree`; every drawn circle (center, radius, alpha) is a
deterministic pure function of exactly the six values recorded here
(`shadowLength` and `shadowAngle` are functions of the tree position, the tree
size, the sun position and the shadow-intensity factor, and `trunkWidth` of
the tree size).  We therefore model the bitmap by these defining parameters:
two artifacts are bit-identical exactly when they were produced from equal
parameter tuples. -/
structure ShadowArt where
  treeX : ℚ
  treeY : ℚ
  treeSize : ℚ
  sunX : ℚ
  sunY : ℚ
  intensity : ℚ
deriving DecidableEq

/-- A foliage entity (`type Tree`): position, size, shade, shape variant,
plus the cached shadow artifact (`shadow`, `nil` ↦ `none`) and its validity
flag (`shadowUpdated`). -/
structure Tree where
  x : ℚ
  y : ℚ
  size : ℚ
  shade : ℚ
  shape : ℤ
  shadow : Option ShadowArt
  shadowUpdated : Bool
deriving DecidableEq

/-- The overlay menu state (`type Menu`). -/
structure Menu where
  visible : Bool
  treeDensity : ℤ
  cloudCount : ℤ
  maxClouds : ℤ
  selectedTree : ℤ
  treeShadow : ℚ
deriving DecidableEq

/-- The whole mutable game state (`type Game`). -/
structure Game where
  clouds : List Cloud
  trees : List Tree
  density : ℚ
  sunX : ℚ
  sunY : ℚ
  isDraggingSun : Bool
  dragStartX : ℚ
  dragStartY : ℚ
  menu : Menu
  draggedTree : ℤ
  dragTreeStartX : ℚ
  sunMoved : Bool
deriving DecidableEq

/-- The four `rand.Float64()` draws and one `rand.Intn(3)` draw consumed when
a fresh tree is initialized (in `NewGame` and in `Game.updateTreeCount`). -/
structure TreeRand where
  rY : ℚ
  rX : ℚ
  rSize : ℚ
  rShade : ℚ
  rShape : ℤ

/-- The five `rand.Float64()` draws consumed when a cloud is initialized. -/
structure CloudRand where
  rX : ℚ
  rY : ℚ
  rSpeed : ℚ
  rSize : ℚ
  rOpacity : ℚ

/-- The device state polled during one tick: `inpututil.IsKeyJustPressed` for
the eight keys read by `Game.Update`, the two mouse-button predicates, the
cursor position (`ebiten.CursorPosition` returns `int`s), and the random
streams consumed if this tick resizes the foliage store (one stream for the
potential Up-key resize, one for the potential Down-key resize). -/
structure Input where
  escape : Bool
  mKey : Bool
  up : Bool
  down : Bool
  left : Bool
  right : Bool
  sKey : Bool
  dKey : Bool
  mouseJustPressed : Bool
  mousePressed : Bool
  cursorX : ℤ
  cursorY : ℤ
  rsUp : ℕ → TreeRand
  rsDown : ℕ → TreeRand

/-- The only error `Game.Update` ever returns is the host's termination
sentinel `ebiten.Termination`. -/
inductive HostError where
  | termination
deriving DecidableEq

/-- A freshly randomized tree, from the literal used in `NewGame` and in
`Game.updateTreeCount`: `x = 50 + rand()*  (screenWidth-100)`,
`y = (screenHeight-groundHeight+groundOffset) + rand()*(groundHeight-groundOffset)`,
`size = 50 + rand()*30`, `shade = 0.7 + rand()*0.3`, `shape = rand.Intn(3)`;
the `shadow` field is omitted in the Go literal (hence `nil`) and
`shadowUpdated` is `false`. -/
def freshTree (r : TreeRand) : Tree :=
  { x := 50 + r.rX * (screenWidth - 100)
    y := (screenHeight - groundHeight + groundOffset) + r.rY * (groundHeight - groundOffset)
    size := 50 + r.rSize * 30
    shade := 0.7 + r.rShade * 0.3
    shape := r.rShape
    shadow := none
    shadowUpdated := false }

/-- A freshly randomized cloud, from the literal in `NewGame`. -/
def freshCloud (r : CloudRand) : Cloud :=
  { x := r.rX * screenWidth
    y := r.rY * screenHeight * 0.6
    speed := 1 + r.rSpeed * 2
    size := 30 + r.rSize * 50
    opacity := 0.3 + r.rOpacity * 0.5 }

/-- Initial state built by `NewGame`, parameterized by the random draws. -/
def newGame (cr : ℕ → CloudRand) (tr : ℕ → TreeRand) : Game :=
  { clouds := (List.range 100).map fun i => freshCloud (cr i)
    trees := (List.range 5).map fun i => freshTree (tr i)
    density := 0.2
    sunX := screenWidth / 2
    sunY := screenHeight - groundHeight - 10
    isDraggingSun := false
    dragStartX := 0
    dragStartY := 0
    menu :=
      { visible := false
        treeDensity := 5
        cloudCount := 100
        maxClouds := 100
        selectedTree := -1
        treeShadow := 1.0 }
    draggedTree := -1
    dragTreeStartX := 0
    sunMoved := true }

/-- The per-tick x-advance of one cloud, from `Game.Update`:
`x += speed; if x > screenWidth+100 { x = -100 }`. -/
def advanceX (v x : ℚ) : ℚ :=
  if x + v > screenWidth + 100 then -100 else x + v

/-- One cloud after the per-tick advance (only `x` changes). -/
def stepCloud (c : Cloud) : Cloud :=
  { c with x := advanceX c.speed c.x }

/-- `Game.updateTreeCount`: rebuild the tree slice at the current
`menu.treeDensity`; indices that existed before are copied and their
`shadowUpdated` flag is set to `false`; new indices get freshly randomized
trees; finally `g.sunMoved = true`. -/
def updateTreeCount (rs : ℕ → TreeRand) (g : Game) : Game :=
  let old := g.trees
  let trees := (List.range g.menu.treeDensity.toNat).map fun i =>
    match old[i]? with
    | some t => { t with shadowUpdated := false }
    | none => freshTree (rs i)
  { g with trees := trees, sunMoved := true }

/-- Escape handled, M key: `g.menu.visible = !g.menu.visible`. -/
def toggleMenu (inp : Input) (g : Game) : Game :=
  if inp.mKey then { g with menu := { g.menu with visible := !g.menu.visible } } else g

/-- The cloud-advance loop of `Game.Update`. -/
def moveClouds (g : Game) : Game :=
  { g with clouds := g.clouds.map stepCloud }

/-- Menu visible, Up arrow: `treeDensity = min(20, treeDensity+1)` then
`updateTreeCount`. -/
def menuUp (inp : Input) (g : Game) : Game :=
  if inp.up then
    updateTreeCount inp.rsUp
      { g with menu := { g.menu with treeDensity := min 20 (g.menu.treeDensity + 1) } }
  else g

/-- Menu visible, Down arrow: `treeDensity = max(1, treeDensity-1)` then
`updateTreeCount`. -/
def menuDown (inp : Input) (g : Game) : Game :=
  if inp.down then
    updateTreeCount inp.rsDown
      { g with menu := { g.menu with treeDensity := max 1 (g.menu.treeDensity - 1) } }
  else g

/-- Menu visible, Left arrow: `cloudCount = max(0, cloudCount-10)`. -/
def menuLeft (inp : Input) (g : Game) : Game :=
  if inp.left then
    { g with menu := { g.menu with cloudCount := max 0 (g.menu.cloudCount - 10) } }
  else g

/-- Menu visible, Right arrow: `cloudCount = min(menu.maxClouds, cloudCount+10)`. -/
def menuRight (inp : Input) (g : Game) : Game :=
  if inp.right then
    { g with menu := { g.menu with cloudCount := min g.menu.maxClouds (g.menu.cloudCount + 10) } }
  else g

/-- Menu visible, S key: `treeShadow = math.Max(0.2, treeShadow-0.1)` and
`sunMoved = true`. -/
def menuS (inp : Input) (g : Game) : Game :=
  if inp.sKey then
    { g with menu := { g.menu with treeShadow := max 0.2 (g.menu.treeShadow - 0.1) }
             sunMoved := true }
  else g

/-- Menu visible, D key: `treeShadow = math.Min(2.0, treeShadow+0.1)` and
`sunMoved = true`. -/
def menuD (inp : Input) (g : Game) : Game :=
  if inp.dKey then
    { g with menu := { g.menu with treeShadow := min 2.0 (g.menu.treeShadow + 0.1) }
             sunMoved := true }
  else g

/-- Menu hidden, Up arrow: `density = math.Min(1.0, density+0.1)`. -/
def densityUp (inp : Input) (g : Game) : Game :=
  if inp.up then { g with density := min 1.0 (g.density + 0.1) } else g

/-- Menu hidden, Down arrow: `density = math.Max(0.0, density-0.1)`. -/
def densityDown (inp : Input) (g : Game) : Game :=
  if inp.down then { g with density := max 0.0 (g.density - 0.1) } else g

/-- The key-handling block of `Game.Update` (lines 132-169). -/
def menuControls (inp : Input) (g : Game) : Game :=
  if g.menu.visible then
    menuD inp (menuS inp (menuRight inp (menuLeft inp (menuDown inp (menuUp inp g)))))
  else
    densityDown inp (densityUp inp g)

/-- The first tree of the list hit by the cursor, with its index: the Go loop
over `g.trees` breaks at the first tree with
`math.Abs(cursorX-tree.x) < tree.size*0.4 && cursorY >= tree.y-tree.size*1.2
&& cursorY <= tree.y`. -/
def findHit (cx cy : ℚ) : List Tree → Option (ℕ × Tree)
  | [] => none
  | t :: ts =>
      if |cx - t.x| < t.size * 0.4 ∧ cy ≥ t.y - t.size * 1.2 ∧ cy ≤ t.y then
        some (0, t)
      else (findHit cx cy ts).map fun p => (p.1 + 1, p.2)

/-- The `IsMouseButtonJustPressed` block of `Game.Update`: hit-test the sun
circle first, otherwise grab the first hit tree. -/
def mousePress (inp : Input) (g : Game) : Game :=
  if inp.mouseJustPressed then
    if ((inp.cursorX : ℚ) - g.sunX) * ((inp.cursorX : ℚ) - g.sunX) +
        ((inp.cursorY : ℚ) - g.sunY) * ((inp.cursorY : ℚ) - g.sunY) ≤ sunRadius * sunRadius then
      { g with isDraggingSun := true
               dragStartX := (inp.cursorX : ℚ) - g.sunX
               dragStartY := (inp.cursorY : ℚ) - g.sunY }
    else
      match findHit (inp.cursorX : ℚ) (inp.cursorY : ℚ) g.trees with
      | some p => { g with draggedTree := (p.1 : ℤ), dragTreeStartX := (inp.cursorX : ℚ) - p.2.x }
      | none => g
  else g

/-- The `IsMouseButtonPressed` block of `Game.Update` (lines 197-226): while
held, drag the sun (clamped to its box, setting `sunMoved`) or the grabbed
tree (only when the cursor is at or below the ground line); on release, set
`sunMoved` if the sun was being dragged and clear both grab states. -/
def mouseHold (inp : Input) (g : Game) : Game :=
  if inp.mousePressed then
    if g.isDraggingSun then
      { g with
        sunX := max sunRadius (min (screenWidth - sunRadius) ((inp.cursorX : ℚ) - g.dragStartX))
        sunY := max sunRadius
          (min (screenHeight - groundHeight - 10) ((inp.cursorY : ℚ) - g.dragStartY))
        sunMoved := true }
    else if g.draggedTree ≠ -1 then
      match g.trees[g.draggedTree.toNat]? with
      | some t =>
          if (inp.cursorY : ℚ) ≥ screenHeight - groundHeight + groundOffset then
            { g with trees := (g.trees.set g.draggedTree.toNat
                { t with x := (inp.cursorX : ℚ) - g.dragTreeStartX
                         y := (inp.cursorY : ℚ)
                         shadowUpdated := false }) }
          else g
      | none => g
    else g
  else
    if g.isDraggingSun then
      { g with sunMoved := true, isDraggingSun := false, draggedTree := -1 }
    else
      { g with isDraggingSun := false, draggedTree := -1 }

/-- `Game.Update`: returns the mutated state together with the error value.
The escape check comes first and returns `ebiten.Termination` before any
other processing; otherwise the tick runs menu toggle, cloud advance, key
controls, and mouse handling, and returns `nil`. -/
def update (g : Game) (inp : Input) : Game × Option HostError :=
  if inp.escape then (g, some HostError.termination)
  else
    (mouseHold inp (mousePress inp (menuControls inp (moveClouds (toggleMenu inp g)))), none)

/-- Fold a sequence of per-tick inputs through `update`, keeping the state. -/
def applyInputs (g : Game) (L : List Input) : Game :=
  L.foldl (fun g' i => (update g' i).1) g

/-- The shadow artifact `Game.drawTree` rasterizes for tree `t` under the
given sun position and shadow-intensity factor (see `ShadowArt`). -/
def shadowArtOf (sunX sunY intensity : ℚ) (t : Tree) : ShadowArt :=
  ⟨t.x, t.y, t.size, sunX, sunY, intensity⟩

/-- The shadow-cache check at the top of `Game.drawTree`
(`if !tree.shadowUpdated || g.sunMoved { ...recompute...; tree.shadowUpdated
= true }`).  Returns the updated tree together with `true` exactly when
rasterization work was performed. -/
def ensureValid (sunX sunY intensity : ℚ) (sunMoved : Bool) (t : Tree) : Tree × Bool :=
  if !t.shadowUpdated || sunMoved then
    ({ t with shadow := some (shadowArtOf sunX sunY intensity t), shadowUpdated := true }, true)
  else (t, false)

/-- The state effect of `Game.drawTree` on its tree argument. -/
def drawTree (sunX sunY intensity : ℚ) (sunMoved : Bool) (t : Tree) : Tree :=
  (ensureValid sunX sunY intensity sunMoved t).1

/-- Whether each tree's `drawTree` call during a `Game.Draw` of state `g`
performs rasterization work. -/
def drawWork (g : Game) : List Bool :=
  g.trees.map fun t => (ensureValid g.sunX g.sunY g.menu.treeShadow g.sunMoved t).2

/-- The state effect of `Game.Draw`: every tree is passed (via the
depth-sorted slice of pointers, which touches each tree exactly once and
leaves `g.trees`' order untouched) through `drawTree`, and `g.sunMoved` is
reset to `false` at the end of the frame.  All other fields are only read. -/
def draw (g : Game) : Game :=
  { g with
    trees := g.trees.map (drawTree g.sunX g.sunY g.menu.treeShadow g.sunMoved)
    sunMoved := false }

/-- The modulus `screenWidth + 2·margin = 1000` named by the spec's
wraparound formula (margin = 100). -/
def cloudWrapModulus : ℚ := screenWidth + 2 * 100

/-- The x-position predicted by the spec's claim for a particle after `N`
ticks: `x0 + N·v` reduced modulo `cloudWrapModulus` into the wrap range
`(-100, screenWidth+100]`. -/
def claimedCloudX (x0 v : ℚ) (N : ℕ) : ℚ :=
  let raw := x0 + N * v
  raw - cloudWrapModulus * ⌈(raw - (screenWidth + 100)) / cloudWrapModulus⌉

/-- The documented clamps of the tunable parameters: density in [0,1],
foliage-count target in [1,20], particle-count target in [0,100] (with the
constant `menu.maxClouds = 100` it is clamped against), shadow-intensity in
[0.2,2.0]. -/
def paramsInRange (g : Game) : Prop :=
  0 ≤ g.density ∧ g.density ≤ 1 ∧
  1 ≤ g.menu.treeDensity ∧ g.menu.treeDensity ≤ 20 ∧
  0 ≤ g.menu.cloudCount ∧ g.menu.cloudCount ≤ 100 ∧
  g.menu.maxClouds = 100 ∧
  0.2 ≤ g.menu.treeShadow ∧ g.menu.treeShadow ≤ 2

instance (g : Game) : Decidable (paramsInRange g) := by
  unfold paramsInRange; infer_instance

/-! Frame lemmas: which fields each phase of `update` can touch. -/

theorem toggleMenu_shape (inp : Input) (g : Game) :
    toggleMenu inp g = { g with menu := (toggleMenu inp g).menu } := by
  unfold toggleMenu; split <;> rfl

theorem toggleMenu_menu (inp : Input) (g : Game) :
    (toggleMenu inp g).menu =
      if inp.mKey then { g.menu with visible := !g.menu.visible } else g.menu := by
  unfold toggleMenu; split_ifs <;> rfl

theorem moveClouds_shape (g : Game) : moveClouds g = { g with clouds := (moveClouds g).clouds } :=
  rfl

theorem moveClouds_clouds (g : Game) : (moveClouds g).clouds = g.clouds.map stepCloud :=
  rfl

theorem updateTreeCount_menu (rs : ℕ → TreeRand) (g : Game) :
    (updateTreeCount rs g).menu = g.menu := rfl

theorem updateTreeCount_shape (rs : ℕ → TreeRand) (g : Game) :
    updateTreeCount rs g =
      { g with trees := (updateTreeCount rs g).trees, sunMoved := true } := rfl

theorem menuUp_shape (inp : Input) (g : Game) :
    menuUp inp g =
      { g with menu := (menuUp inp g).menu, trees := (menuUp inp g).trees
               sunMoved := (menuUp inp g).sunMoved } := by
  unfold menuUp; split <;> rfl

theorem menuUp_menu (inp : Input) (g : Game) :
    (menuUp inp g).menu =
      if inp.up then { g.menu with treeDensity := min 20 (g.menu.treeDensity + 1) }
      else g.menu := by
  unfold menuUp; split_ifs <;> rfl

theorem menuUp_sunMoved (inp : Input) (g : Game) :
    (menuUp inp g).sunMoved = if inp.up then true else g.sunMoved := by
  unfold menuUp; split_ifs <;> rfl

theorem menuUp_id (inp : Input) (g : Game) (h : inp.up = false) : menuUp inp g = g := by
  unfold menuUp; rw [if_neg (by simp [h])]

theorem menuDown_shape (inp : Input) (g : Game) :
    menuDown inp g =
      { g with menu := (menuDown inp g).menu, trees := (menuDown inp g).trees
               sunMoved := (menuDown inp g).sunMoved } := by
  unfold menuDown; split <;> rfl

theorem menuDown_menu (inp : Input) (g : Game) :
    (menuDown inp g).menu =
      if inp.down then { g.menu with treeDensity := max 1 (g.menu.treeDensity - 1) }
      else g.menu := by
  unfold menuDown; split_ifs <;> rfl

theorem menuDown_sunMoved (inp : Input) (g : Game) :
    (menuDown inp g).sunMoved = if inp.down then true else g.sunMoved := by
  unfold menuDown; split_ifs <;> rfl

theorem menuDown_id (inp : Input) (g : Game) (h : inp.down = false) : menuDown inp g = g := by
  unfold menuDown; rw [if_neg (by simp [h])]

theorem menuLeft_shape (inp : Input) (g : Game) :
    menuLeft inp g = { g with menu := (menuLeft inp g).menu } := by
  unfold menuLeft; split <;> rfl

theorem menuLeft_menu (inp : Input) (g : Game) :
    (menuLeft inp g).menu =
      if inp.left then { g.menu with cloudCount := max 0 (g.menu.cloudCount - 10) }
      else g.menu := by
  unfold menuLeft; split_ifs <;> rfl

theorem menuRight_shape (inp : Input) (g : Game) :
    menuRight inp g = { g with menu := (menuRight inp g).menu } := by
  unfold menuRight; split <;> rfl

theorem menuRight_menu (inp : Input) (g : Game) :
    (menuRight inp g).menu =
      if inp.right then
        { g.menu with cloudCount := min g.menu.maxClouds (g.menu.cloudCount + 10) }
      else g.menu := by
  unfold menuRight; split_ifs <;> rfl

theorem menuS_shape (inp : Input) (g : Game) :
    menuS inp g =
      { g with menu := (menuS inp g).menu, sunMoved := (menuS inp g).sunMoved } := by
  unfold menuS; split <;> rfl

theorem menuS_menu (inp : Input) (g : Game) :
    (menuS inp g).menu =
      if inp.sKey then { g.menu with treeShadow := max 0.2 (g.menu.treeShadow - 0.1) }
      else g.menu := by
  unfold menuS; split_ifs <;> rfl

theorem menuS_sunMoved (inp : Input) (g : Game) :
    (menuS inp g).sunMoved = if inp.sKey then true else g.sunMoved := by
  unfold menuS; split_ifs <;> rfl

theorem menuD_shape (inp : Input) (g : Game) :
    menuD inp g =
      { g with menu := (menuD inp g).menu, sunMoved := (menuD inp g).sunMoved } := by
  unfold menuD; split <;> rfl

theorem menuD_menu (inp : Input) (g : Game) :
    (menuD inp g).menu =
      if inp.dKey then { g.menu with treeShadow := min 2.0 (g.menu.treeShadow + 0.1) }
      else g.menu := by
  unfold menuD; split_ifs <;> rfl

theorem menuD_sunMoved (inp : Input) (g : Game) :
    (menuD inp g).sunMoved = if inp.dKey then true else g.sunMoved := by
  unfold menuD; split_ifs <;> rfl

theorem densityUp_shape (inp : Input) (g : Game) :
    densityUp inp g = { g with density := (densityUp inp g).density } := by
  unfold densityUp; split <;> rfl

theorem densityUp_density (inp : Input) (g : Game) :
    (densityUp inp g).density =
      if inp.up then min 1.0 (g.density + 0.1) else g.density := by
  unfold densityUp; split_ifs <;> rfl

theorem densityDown_shape (inp : Input) (g : Game) :
    densityDown inp g = { g with density := (densityDown inp g).density } := by
  unfold densityDown; split <;> rfl

theorem densityDown_density (inp : Input) (g : Game) :
    (densityDown inp g).density =
      if inp.down then max 0.0 (g.density - 0.1) else g.density := by
  unfold densityDown; split_ifs <;> rfl

theorem menuLeft_trees (inp : Input) (g : Game) : (menuLeft inp g).trees = g.trees := by
  rw [menuLeft_shape]

theorem menuRight_trees (inp : Input) (g : Game) : (menuRight inp g).trees = g.trees := by
  rw [menuRight_shape]

theorem menuS_trees (inp : Input) (g : Game) : (menuS inp g).trees = g.trees := by
  rw [menuS_shape]

theorem menuD_trees (inp : Input) (g : Game) : (menuD inp g).trees = g.trees := by
  rw [menuD_shape]

theorem densityUp_trees (inp : Input) (g : Game) : (densityUp inp g).trees = g.trees := by
  rw [densityUp_shape]

theorem densityDown_trees (inp : Input) (g : Game) : (densityDown inp g).trees = g.trees := by
  rw [densityDown_shape]

theorem menuLeft_sunMoved (inp : Input) (g : Game) : (menuLeft inp g).sunMoved = g.sunMoved := by
  rw [menuLeft_shape]

theorem menuRight_sunMoved (inp : Input) (g : Game) :
    (menuRight inp g).sunMoved = g.sunMoved := by
  rw [menuRight_shape]

theorem densityUp_sunMoved (inp : Input) (g : Game) :
    (densityUp inp g).sunMoved = g.sunMoved := by
  rw [densityUp_shape]

theorem densityDown_sunMoved (inp : Input) (g : Game) :
    (densityDown inp g).sunMoved = g.sunMoved := by
  rw [densityDown_shape]

theorem menuUp_density (inp : Input) (g : Game) : (menuUp inp g).density = g.density := by
  rw [menuUp_shape]

theorem menuDown_density (inp : Input) (g : Game) : (menuDown inp g).density = g.density := by
  rw [menuDown_shape]

theorem menuLeft_density (inp : Input) (g : Game) : (menuLeft inp g).density = g.density := by
  rw [menuLeft_shape]

theorem menuRight_density (inp : Input) (g : Game) : (menuRight inp g).density = g.density := by
  rw [menuRight_shape]

theorem menuS_density (inp : Input) (g : Game) : (menuS inp g).density = g.density := by
  rw [menuS_shape]

theorem menuD_density (inp : Input) (g : Game) : (menuD inp g).density = g.density := by
  rw [menuD_shape]

theorem densityUp_menu (inp : Input) (g : Game) : (densityUp inp g).menu = g.menu := by
  rw [densityUp_shape]

theorem densityDown_menu (inp : Input) (g : Game) : (densityDown inp g).menu = g.menu := by
  rw [densityDown_shape]

theorem menuControls_treeDensity (inp : Input) (g : Game) :
    (menuControls inp g).menu.treeDensity =
      if g.menu.visible then
        (if inp.down then
           max 1 ((if inp.up then min 20 (g.menu.treeDensity + 1) else g.menu.treeDensity) - 1)
         else if inp.up then min 20 (g.menu.treeDensity + 1) else g.menu.treeDensity)
      else g.menu.treeDensity := by
  unfold menuControls
  cases hv : g.menu.visible
  · simp [densityDown_menu, densityUp_menu]
  · simp [menuD_menu, menuS_menu, menuRight_menu, menuLeft_menu, menuDown_menu, menuUp_menu,
      apply_ite Menu.treeDensity]

theorem menuControls_cloudCount (inp : Input) (g : Game) :
    (menuControls inp g).menu.cloudCount =
      if g.menu.visible then
        (if inp.right then
           min g.menu.maxClouds
             ((if inp.left then max 0 (g.menu.cloudCount - 10) else g.menu.cloudCount) + 10)
         else if inp.left then max 0 (g.menu.cloudCount - 10) else g.menu.cloudCount)
      else g.menu.cloudCount := by
  unfold menuControls
  cases hv : g.menu.visible
  · simp [densityDown_menu, densityUp_menu]
  · simp [menuD_menu, menuS_menu, menuRight_menu, menuLeft_menu, menuDown_menu, menuUp_menu,
      apply_ite Menu.cloudCount, apply_ite Menu.maxClouds]

theorem menuControls_treeShadow (inp : Input) (g : Game) :
    (menuControls inp g).menu.treeShadow =
      if g.menu.visible then
        (if inp.dKey then
           min 2.0 ((if inp.sKey then max 0.2 (g.menu.treeShadow - 0.1)
                     else g.menu.treeShadow) + 0.1)
         else if inp.sKey then max 0.2 (g.menu.treeShadow - 0.1) else g.menu.treeShadow)
      else g.menu.treeShadow := by
  unfold menuControls
  cases hv : g.menu.visible
  · simp [densityDown_menu, densityUp_menu]
  · simp [menuD_menu, menuS_menu, menuRight_menu, menuLeft_menu, menuDown_menu, menuUp_menu,
      apply_ite Menu.treeShadow]

theorem menuControls_maxClouds (inp : Input) (g : Game) :
    (menuControls inp g).menu.maxClouds = g.menu.maxClouds := by
  unfold menuControls
  cases hv : g.menu.visible
  · simp [densityDown_menu, densityUp_menu]
  · simp [menuD_menu, menuS_menu, menuRight_menu, menuLeft_menu, menuDown_menu, menuUp_menu,
      apply_ite Menu.maxClouds]

theorem menuControls_density (inp : Input) (g : Game) :
    (menuControls inp g).density =
      if g.menu.visible then g.density
      else
        (if inp.down then
           max 0.0 ((if inp.up then min 1.0 (g.density + 0.1) else g.density) - 0.1)
         else if inp.up then min 1.0 (g.density + 0.1) else g.density) := by
  unfold menuControls
  cases hv : g.menu.visible
  · simp [densityDown_density, densityUp_density]
  · simp [menuD_density, menuS_density, menuRight_density, menuLeft_density,
      menuDown_density, menuUp_density]

theorem menuControls_sunMoved (inp : Input) (g : Game) :
    (menuControls inp g).sunMoved =
      if g.menu.visible then
        (if inp.dKey then true else if inp.sKey then true
         else if inp.down then true else if inp.up then true else g.sunMoved)
      else g.sunMoved := by
  unfold menuControls
  cases hv : g.menu.visible
  · simp [densityDown_sunMoved, densityUp_sunMoved]
  · simp [menuD_sunMoved, menuS_sunMoved, menuRight_sunMoved, menuLeft_sunMoved,
      menuDown_sunMoved, menuUp_sunMoved]

theorem menuControls_trees_id (inp : Input) (g : Game) (hup : inp.up = false)
    (hdown : inp.down = false) : (menuControls inp g).trees = g.trees := by
  unfold menuControls
  cases hv : g.menu.visible
  · rw [if_neg (by simp), densityDown_trees, densityUp_trees]
  · rw [if_pos rfl, menuD_trees, menuS_trees, menuRight_trees, menuLeft_trees,
      menuDown_id inp _ hdown, menuUp_id inp _ hup]

theorem menuControls_shape (inp : Input) (g : Game) :
    menuControls inp g =
      { g with menu := (menuControls inp g).menu, trees := (menuControls inp g).trees
               sunMoved := (menuControls inp g).sunMoved
               density := (menuControls inp g).density } := by
  unfold menuControls
  split
  · rw [menuD_shape, menuS_shape, menuRight_shape, menuLeft_shape, menuDown_shape, menuUp_shape]
  · rw [densityDown_shape, densityUp_shape]

theorem mousePress_shape (inp : Input) (g : Game) :
    mousePress inp g =
      { g with isDraggingSun := (mousePress inp g).isDraggingSun
               dragStartX := (mousePress inp g).dragStartX
               dragStartY := (mousePress inp g).dragStartY
               draggedTree := (mousePress inp g).draggedTree
               dragTreeStartX := (mousePress inp g).dragTreeStartX } := by
  unfold mousePress
  split
  · split
    · rfl
    · split <;> rfl
  · rfl

theorem mousePress_id (inp : Input) (g : Game) (h : inp.mouseJustPressed = false) :
    mousePress inp g = g := by
  unfold mousePress; rw [if_neg (by simp [h])]

theorem mouseHold_shape (inp : Input) (g : Game) :
    mouseHold inp g =
      { g with sunX := (mouseHold inp g).sunX, sunY := (mouseHold inp g).sunY
               sunMoved := (mouseHold inp g).sunMoved, trees := (mouseHold inp g).trees
               isDraggingSun := (mouseHold inp g).isDraggingSun
               draggedTree := (mouseHold inp g).draggedTree } := by
  unfold mouseHold
  split
  · split
    · rfl
    · split
      · split
        · split <;> rfl
        · rfl
      · rfl
  · split <;> rfl

theorem mouseHold_sunDrag (inp : Input) (g : Game) (hp : inp.mousePressed = true)
    (hd : g.isDraggingSun = true) :
    mouseHold inp g =
      { g with
        sunX := max sunRadius (min (screenWidth - sunRadius) ((inp.cursorX : ℚ) - g.dragStartX))
        sunY := max sunRadius
          (min (screenHeight - groundHeight - 10) ((inp.cursorY : ℚ) - g.dragStartY))
        sunMoved := true } := by
  unfold mouseHold; rw [if_pos hp, if_pos hd]

theorem mouseHold_treeDrag (inp : Input) (g : Game) (i : ℕ) (t : Tree)
    (hp : inp.mousePressed = true) (hd : g.isDraggingSun = false)
    (hi : g.draggedTree = (i : ℤ)) (ht : g.trees[i]? = some t)
    (hy : (inp.cursorY : ℚ) ≥ screenHeight - groundHeight + groundOffset) :
    mouseHold inp g =
      { g with trees := (g.trees.set i
          { t with x := (inp.cursorX : ℚ) - g.dragTreeStartX
                   y := (inp.cursorY : ℚ)
                   shadowUpdated := false }) } := by
  have hnat : g.draggedTree.toNat = i := by rw [hi]; exact Int.toNat_natCast i
  unfold mouseHold
  rw [if_pos hp, if_neg (by simp [hd]), if_pos (show g.draggedTree ≠ -1 by rw [hi]; omega),
    hnat, ht]
  exact if_pos hy

theorem mouseHold_treeDragBlocked (inp : Input) (g : Game) (i : ℕ) (t : Tree)
    (hp : inp.mousePressed = true) (hd : g.isDraggingSun = false)
    (hi : g.draggedTree = (i : ℤ)) (ht : g.trees[i]? = some t)
    (hy : ¬ (inp.cursorY : ℚ) ≥ screenHeight - groundHeight + groundOffset) :
    mouseHold inp g = g := by
  have hnat : g.draggedTree.toNat = i := by rw [hi]; exact Int.toNat_natCast i
  unfold mouseHold
  rw [if_pos hp, if_neg (by simp [hd]), if_pos (show g.draggedTree ≠ -1 by rw [hi]; omega),
    hnat, ht]
  exact if_neg hy

theorem mouseHold_sun_cases (inp : Input) (g : Game) :
    (mouseHold inp g).sunMoved = true ∨
      ((mouseHold inp g).sunX = g.sunX ∧ (mouseHold inp g).sunY = g.sunY ∧
        (mouseHold inp g).sunMoved = g.sunMoved) := by
  unfold mouseHold
  split
  · split
    · left; rfl
    · split
      · split
        · split
          · right; exact ⟨rfl, rfl, rfl⟩
          · right; exact ⟨rfl, rfl, rfl⟩
        · right; exact ⟨rfl, rfl, rfl⟩
      · right; exact ⟨rfl, rfl, rfl⟩
  · split
    · left; rfl
    · right; exact ⟨rfl, rfl, rfl⟩

theorem mouseHold_sunMoved_mono (inp : Input) (g : Game) (h : g.sunMoved = true) :
    (mouseHold inp g).sunMoved = true := by
  unfold mouseHold
  split
  · split
    · rfl
    · split
      · split
        · split
          · exact h
          · exact h
        · exact h
      · exact h
  · split
    · rfl
    · exact h

theorem update_fst (g : Game) (inp : Input) (h : inp.escape = false) :
    (update g inp).1 =
      mouseHold inp (mousePress inp (menuControls inp (moveClouds (toggleMenu inp g)))) := by
  unfold update; rw [if_neg (by simp [h])]

theorem update_snd (g : Game) (inp : Input) :
    (update g inp).2 = if inp.escape then some HostError.termination else none := by
  unfold update; split_ifs <;> rfl

theorem update_escape (g : Game) (inp : Input) (h : inp.escape = true) :
    update g inp = (g, some HostError.termination) := by
  unfold update; rw [if_pos h]

theorem mousePress_sunMoved (inp : Input) (g : Game) :
    (mousePress inp g).sunMoved = g.sunMoved := by
  rw [mousePress_shape]

theorem drawTree_x (sx sy it : ℚ) (m : Bool) (t : Tree) : (drawTree sx sy it m t).x = t.x := by
  unfold drawTree ensureValid; split <;> rfl

/-! Concrete fixtures used by witnesses and counterexamples. -/

/-- A constant random stream (all draws 0). -/
def trNil : ℕ → TreeRand := fun _ => ⟨0, 0, 0, 0, 0⟩

/-- The all-idle input: no key pressed, no mouse button, cursor at origin. -/
def inpNil : Input :=
  ⟨false, false, false, false, false, false, false, false, false, false, 0, 0, trNil, trNil⟩

/-- A tree with no cached shadow yet. -/
def tree0 : Tree := ⟨100, 500, 60, 0.8, 0, none, false⟩

/-- A small concrete game state. -/
def game0 : Game :=
  ⟨[⟨50, 100, 2, 30, 0.5⟩], [tree0], 0.2, 400, 440, false, 0, 0,
    ⟨false, 1, 100, 100, -1, 1⟩, -1, 0, false⟩

/-- A tree whose cached shadow is consistent with sun (400,440), intensity 0.2. -/
def treeC2 : Tree := ⟨100, 500, 60, 0.8, 0, some ⟨100, 500, 60, 400, 440, 0.2⟩, true⟩

/-- Game in which `treeC2`'s cache is valid and consistent, the overlay menu is
open, and the shadow-intensity is already at its lower clamp 0.2. -/
def gameC2 : Game :=
  ⟨[], [treeC2], 0.2, 400, 440, false, 0, 0, ⟨true, 1, 100, 100, -1, 0.2⟩, -1, 0, false⟩

/-- The input that only presses the S (decrease shadow-intensity) key. -/
def inpS : Input := { inpNil with sKey := true }

/-- C9: `Game.Update` returns a non-nil error exactly when Escape was just
pressed, that error is the host's termination sentinel `ebiten.Termination`,
and a terminating tick performs no state mutation at all. -/
theorem c9_terminationBehavior (g : Game) (inp : Input) :
    ((update g inp).2 = some HostError.termination ↔ inp.escape = true) ∧
    (inp.escape = true → (update g inp).1 = g) := by
  constructor
  · rw [update_snd]; cases h : inp.escape <;> simp [h]
  · intro h; rw [update_escape g inp h]

/-- Witness for C9 at a concrete state and input. -/
theorem c9_terminationBehavior_witness :
    (update game0 { inpNil with escape := true }).1 = game0 ∧
    (update game0 { inpNil with escape := true }).2 = some HostError.termination :=
  ⟨(c9_terminationBehavior game0 { inpNil with escape := true }).2 rfl,
    (c9_terminationBehavior game0 { inpNil with escape := true }).1.mpr rfl⟩

/-- C10: the draw step mutates no scene state other than each tree's cached
shadow image and validity flag, and the reset of `sunMoved` to `false`:
clouds, tree positions/sizes/shades/shapes and insertion order, sun position,
density, drag state and every menu parameter are unchanged. -/
theorem c10_drawFrameEffect (g : Game) :
    (draw g).clouds = g.clouds ∧ (draw g).density = g.density ∧
    (draw g).sunX = g.sunX ∧ (draw g).sunY = g.sunY ∧
    (draw g).isDraggingSun = g.isDraggingSun ∧
    (draw g).dragStartX = g.dragStartX ∧ (draw g).dragStartY = g.dragStartY ∧
    (draw g).menu = g.menu ∧ (draw g).draggedTree = g.draggedTree ∧
    (draw g).dragTreeStartX = g.dragTreeStartX ∧
    (draw g).sunMoved = false ∧
    (draw g).trees.length = g.trees.length ∧
    (draw g).trees.map Tree.x = g.trees.map Tree.x ∧
    (draw g).trees.map Tree.y = g.trees.map Tree.y ∧
    (draw g).trees.map Tree.size = g.trees.map Tree.size ∧
    (draw g).trees.map Tree.shade = g.trees.map Tree.shade ∧
    (draw g).trees.map Tree.shape = g.trees.map Tree.shape := by
  refine ⟨rfl, rfl, rfl, rfl, rfl, rfl, rfl, rfl, rfl, rfl, rfl, by simp [draw],
    ?_, ?_, ?_, ?_, ?_⟩ <;>
  · simp only [draw, List.map_map]
    exact List.map_congr_left fun t _ => by unfold Function.comp drawTree ensureValid; split <;> rfl

/-- C2 (amended): the cache check is keyed on the validity flag and the
light-moved flag, not on an input snapshot.  After any `ensureValid`, the
validity flag is set; a second `ensureValid` with the same inputs and the
light-moved flag clear (as holds after `Game.Draw` resets it, when neither
light, intensity nor the entity changed) is a no-op returning `false` for
"work performed" and leaves the artifact bit-identical; when the first call
did recompute, the artifact it stored is exactly the one determined by the
given (light position, intensity, entity) tuple. -/
theorem c2_ensureValidIdempotent (sunX sunY intensity : ℚ) (m : Bool) (t : Tree) :
    ensureValid sunX sunY intensity false (ensureValid sunX sunY intensity m t).1 =
      ((ensureValid sunX sunY intensity m t).1, false) ∧
    (ensureValid sunX sunY intensity m t).1.shadowUpdated = true ∧
    ((m = true ∨ t.shadowUpdated = false) →
      (ensureValid sunX sunY intensity m t).1.shadow =
        some (shadowArtOf sunX sunY intensity t)) := by
  cases hm : m <;> cases hs : t.shadowUpdated <;> simp [ensureValid, hm, hs]

/-- Witness for C2's amended theorem at concrete inputs. -/
theorem c2_ensureValidIdempotent_witness :
    ensureValid 400 440 1 false (ensureValid 400 440 1 true tree0).1 =
      ((ensureValid 400 440 1 true tree0).1, false) ∧
    (ensureValid 400 440 1 true tree0).1.shadow = some (shadowArtOf 400 440 1 tree0) :=
  ⟨(c2_ensureValidIdempotent 400 440 1 true tree0).1,
    (c2_ensureValidIdempotent 400 440 1 true tree0).2.2 (Or.inl rfl)⟩

/-- Counterexample to C2 as stated: in `gameC2` the single tree's artifact is
consistent with the current (light position, intensity, entity position), and
a tick that merely presses S with the intensity already clamped at 0.2 changes
none of those inputs — yet the next revalidation performs rasterization work,
because the keypress sets the global light-moved flag unconditionally. -/
theorem c2_counterexample :
    gameC2.trees = [treeC2] ∧
    treeC2.shadow = some (shadowArtOf gameC2.sunX gameC2.sunY gameC2.menu.treeShadow treeC2) ∧
    treeC2.shadowUpdated = true ∧
    (update gameC2 inpS).1.sunX = gameC2.sunX ∧
    (update gameC2 inpS).1.sunY = gameC2.sunY ∧
    (update gameC2 inpS).1.menu.treeShadow = gameC2.menu.treeShadow ∧
    (update gameC2 inpS).1.trees = gameC2.trees ∧
    drawWork (update gameC2 inpS).1 = [true] := by
  refine ⟨rfl, rfl, rfl, ?_, ?_, ?_, ?_, ?_⟩ <;>
    norm_num [update, toggleMenu, moveClouds, menuControls, menuUp, menuDown, menuLeft,
      menuRight, menuS, menuD, densityUp, densityDown, mousePress, mouseHold, updateTreeCount,
      stepCloud, advanceX, inpS, inpNil, gameC2, treeC2, drawWork, ensureValid, shadowArtOf,
      screenWidth, screenHeight, sunRadius, groundHeight, groundOffset, trNil, max_def, min_def]

theorem update_clouds (g : Game) (inp : Input) (h : inp.escape = false) :
    (update g inp).1.clouds = g.clouds.map stepCloud := by
  rw [update_fst g inp h, mouseHold_shape, mousePress_shape, menuControls_shape,
    moveClouds_clouds, toggleMenu_shape]

/-- C5 (amended): over any quit-free input sequence, each cloud's x after N
ticks is the N-fold iterate of the per-tick step `x ↦ x + v`, resetting to
exactly −100 whenever the sum exceeds `screenWidth + 100`; the overshoot is
discarded at the reset, so the iterate — not the spec's mod-1000 formula —
describes the trajectory.  All other cloud fields are unchanged. -/
theorem c5_cloudAdvance : ∀ (L : List Input) (g : Game), (∀ i ∈ L, i.escape = false) →
    (applyInputs g L).clouds =
      g.clouds.map fun c => { c with x := (advanceX c.speed)^[L.length] c.x } := by
  intro L
  induction L with
  | nil =>
      intro g _
      simp only [applyInputs, List.foldl_nil, List.length_nil, Function.iterate_zero, id_eq]
      conv_lhs => rw [← List.map_id g.clouds]
      exact List.map_congr_left fun c _ => rfl
  | cons i L ih =>
      intro g h
      have h1 : i.escape = false := h i (List.mem_cons_self i L)
      have h2 : ∀ j ∈ L, j.escape = false := fun j hj => h j (List.mem_cons_of_mem i hj)
      have hstep : applyInputs g (i :: L) = applyInputs (update g i).1 L := by
        simp [applyInputs]
      rw [hstep, ih (update g i).1 h2, update_clouds g i h1, List.map_map, List.length_cons]
      exact List.map_congr_left fun c _ => by
        simp [stepCloud, Function.iterate_succ_apply]

/-- Witness for C5's amended theorem on a one-tick sequence. -/
theorem c5_cloudAdvance_witness :
    (∀ i ∈ [inpNil], i.escape = false) ∧
    (applyInputs game0 [inpNil]).clouds =
      game0.clouds.map fun c => { c with x := (advanceX c.speed)^[1] c.x } :=
  ⟨fun i hi => by rw [List.mem_singleton] at hi; subst hi; rfl,
    c5_cloudAdvance [inpNil] game0 fun i hi => by rw [List.mem_singleton] at hi; subst hi; rfl⟩

/-- The cloud used in C5's counterexample: x = 899, speed = 2. -/
def cloudC5 : Cloud := ⟨899, 100, 2, 30, 0.5⟩

/-- Counterexample to C5 as stated: one tick from x₀ = 899 with v = 2 gives
exactly −100 (the overshoot past 900 is discarded), while the claimed formula
(x₀ + N·v reduced mod screenWidth + 2·margin = 1000 into the wrap range)
yields −99; indeed −100 is not congruent to x₀ + N·v modulo 1000 at all. -/
theorem c5_counterexample :
    (stepCloud cloudC5).x = -100 ∧
    claimedCloudX cloudC5.x cloudC5.speed 1 = -99 ∧
    ¬ ∃ k : ℤ, (stepCloud cloudC5).x - (cloudC5.x + (1 : ℕ) * cloudC5.speed) =
        cloudWrapModulus * k := by
  have h1 : (stepCloud cloudC5).x = -100 := by
    norm_num [stepCloud, advanceX, cloudC5, screenWidth]
  have hceil : ⌈((1 : ℚ)) / 1000⌉ = 1 := by
    rw [Int.ceil_eq_iff]
    norm_num
  refine ⟨h1, ?_, ?_⟩
  · show cloudC5.x + (1 : ℕ) * cloudC5.speed - cloudWrapModulus *
      ⌈(cloudC5.x + (1 : ℕ) * cloudC5.speed - (screenWidth + 100)) / cloudWrapModulus⌉ = -99
    norm_num [cloudC5, cloudWrapModulus, screenWidth]
    rw [hceil]
    norm_num
  · rintro ⟨k, hk⟩
    rw [h1] at hk
    norm_num [cloudC5, cloudWrapModulus, screenWidth] at hk
    have : (1000 : ℤ) * k = -1001 := by exact_mod_cast hk.symm
    omega

/-- C3 (amended): `updateTreeCount` resizes the store to the current target;
each index that existed before keeps its tree's position, size, shade, shape
and cached shadow image, but its validity flag is reset to `false`; new
indices get freshly randomized trees within the documented ranges (x in
[50,750), y in [470,600), size in [50,80), shade in [0.7,1), no cached
shadow); and the light-moved flag is set unconditionally, so every entity —
not just the new ones — is recomputed at the next draw even if the light did
not move this tick. -/
theorem c3_resizeFoliage (g : Game) (rs : ℕ → TreeRand) :
    ((updateTreeCount rs g).trees.length = g.menu.treeDensity.toNat) ∧
    (∀ i : ℕ, i < g.menu.treeDensity.toNat →
      (updateTreeCount rs g).trees[i]? =
        some (match g.trees[i]? with
              | some t => { t with shadowUpdated := false }
              | none => freshTree (rs i))) ∧
    ((updateTreeCount rs g).sunMoved = true) ∧
    ((updateTreeCount rs g).menu = g.menu) ∧
    (∀ r : TreeRand, 0 ≤ r.rX → r.rX < 1 →
      50 ≤ (freshTree r).x ∧ (freshTree r).x < 750) ∧
    (∀ r : TreeRand, 0 ≤ r.rY → r.rY < 1 →
      470 ≤ (freshTree r).y ∧ (freshTree r).y < 600) ∧
    (∀ r : TreeRand, 0 ≤ r.rSize → r.rSize < 1 →
      50 ≤ (freshTree r).size ∧ (freshTree r).size < 80) ∧
    (∀ r : TreeRand, 0 ≤ r.rShade → r.rShade < 1 →
      0.7 ≤ (freshTree r).shade ∧ (freshTree r).shade < 1) ∧
    (∀ r : TreeRand, (freshTree r).shadowUpdated = false ∧ (freshTree r).shadow = none) := by
  refine ⟨?_, ?_, rfl, rfl, ?_, ?_, ?_, ?_, fun r => ⟨rfl, rfl⟩⟩
  · simp [updateTreeCount]
  · intro i hi
    simp only [updateTreeCount, List.getElem?_map, List.getElem?_range, hi]
    rfl
  · intro r h0 h1
    constructor <;> norm_num [freshTree, screenWidth] <;> nlinarith
  · intro r h0 h1
    constructor <;>
      norm_num [freshTree, screenWidth, screenHeight, groundHeight, groundOffset] <;> nlinarith
  · intro r h0 h1
    constructor <;> norm_num [freshTree] <;> nlinarith
  · intro r h0 h1
    constructor <;> norm_num [freshTree] <;> nlinarith

/-- A tree with a valid cached shadow, used in C3's counterexample. -/
def treeC3 : Tree := ⟨150, 480, 50, 0.8, 1, some ⟨150, 480, 50, 400, 440, 1⟩, true⟩

/-- Game with one valid-cached tree and a foliage-count target of 2, with the
light not moved this tick. -/
def gameC3 : Game :=
  ⟨[], [treeC3], 0.2, 400, 440, false, 0, 0, ⟨true, 2, 100, 100, -1, 1⟩, -1, 0, false⟩

/-- Counterexample to C3 as stated: resizing from 1 to 2 trees does NOT
preserve the kept entity's shadow cache validity flag (it flips from `true`
to `false`), and it marks all entities for recompute by setting the
light-moved flag even though the light did not move in this tick. -/
theorem c3_counterexample :
    gameC3.trees.map Tree.shadowUpdated = [true] ∧
    gameC3.sunMoved = false ∧
    (updateTreeCount trNil gameC3).trees.map Tree.shadowUpdated = [false, false] ∧
    (updateTreeCount trNil gameC3).sunMoved = true := by
  refine ⟨rfl, rfl, ?_, rfl⟩
  rfl

/-- Witness for C3's amended theorem on the concrete 1→2 resize. -/
theorem c3_resizeFoliage_witness :
    ((updateTreeCount trNil gameC3).trees[0]? = some { treeC3 with shadowUpdated := false }) ∧
    ((updateTreeCount trNil gameC3).trees[1]? = some (freshTree (trNil 1))) ∧
    (50 ≤ (freshTree (trNil 1)).x ∧ (freshTree (trNil 1)).x < 750) := by
  obtain ⟨h1, h2, h3, h4, h5, _⟩ := c3_resizeFoliage gameC3 trNil
  exact ⟨(h2 0 (by decide)).trans rfl, (h2 1 (by decide)).trans rfl,
    h5 (trNil 1) (by norm_num [trNil]) (by norm_num [trNil])⟩


theorem moveClouds_menu (g : Game) : (moveClouds g).menu = g.menu := rfl

theorem moveClouds_density (g : Game) : (moveClouds g).density = g.density := rfl

theorem base_treeDensity (inp : Input) (g : Game) :
    (moveClouds (toggleMenu inp g)).menu.treeDensity = g.menu.treeDensity := by
  rw [moveClouds_menu, toggleMenu_menu]; split_ifs <;> rfl

theorem base_cloudCount (inp : Input) (g : Game) :
    (moveClouds (toggleMenu inp g)).menu.cloudCount = g.menu.cloudCount := by
  rw [moveClouds_menu, toggleMenu_menu]; split_ifs <;> rfl

theorem base_maxClouds (inp : Input) (g : Game) :
    (moveClouds (toggleMenu inp g)).menu.maxClouds = g.menu.maxClouds := by
  rw [moveClouds_menu, toggleMenu_menu]; split_ifs <;> rfl

theorem base_treeShadow (inp : Input) (g : Game) :
    (moveClouds (toggleMenu inp g)).menu.treeShadow = g.menu.treeShadow := by
  rw [moveClouds_menu, toggleMenu_menu]; split_ifs <;> rfl

theorem base_density (inp : Input) (g : Game) :
    (moveClouds (toggleMenu inp g)).density = g.density := by
  rw [moveClouds_density, toggleMenu_shape]

theorem update_menu_eq (g : Game) (inp : Input) (h : inp.escape = false) :
    (update g inp).1.menu = (menuControls inp (moveClouds (toggleMenu inp g))).menu := by
  rw [update_fst g inp h, mouseHold_shape, mousePress_shape]

theorem update_density_eq (g : Game) (inp : Input) (h : inp.escape = false) :
    (update g inp).1.density = (menuControls inp (moveClouds (toggleMenu inp g))).density := by
  rw [update_fst g inp h, mouseHold_shape, mousePress_shape]

theorem paramsInRange_update (g : Game) (inp : Input) (h : paramsInRange g) :
    paramsInRange (update g inp).1 := by
  cases hesc : inp.escape
  case true => rw [update_escape g inp hesc]; exact h
  case false =>
    obtain ⟨h1, h2, h3, h4, h5, h6, h7, h8, h9⟩ := h
    have hm := update_menu_eq g inp hesc
    have hd := update_density_eq g inp hesc
    refine ⟨?_, ?_, ?_, ?_, ?_, ?_, ?_, ?_, ?_⟩
    · rw [hd, menuControls_density, base_density]
      simp only [min_def, max_def]; split_ifs <;> linarith
    · rw [hd, menuControls_density, base_density]
      simp only [min_def, max_def]; split_ifs <;> linarith
    · rw [hm, menuControls_treeDensity, base_treeDensity]; split_ifs <;> omega
    · rw [hm, menuControls_treeDensity, base_treeDensity]; split_ifs <;> omega
    · rw [hm, menuControls_cloudCount, base_cloudCount, base_maxClouds, h7]
      split_ifs <;> omega
    · rw [hm, menuControls_cloudCount, base_cloudCount, base_maxClouds, h7]
      split_ifs <;> omega
    · rw [hm, menuControls_maxClouds, base_maxClouds]; exact h7
    · rw [hm, menuControls_treeShadow, base_treeShadow]
      simp only [min_def, max_def]; split_ifs <;> linarith
    · rw [hm, menuControls_treeShadow, base_treeShadow]
      simp only [min_def, max_def]; split_ifs <;> linarith

theorem paramsInRange_applyInputs (g : Game) (L : List Input) (h : paramsInRange g) :
    paramsInRange (applyInputs g L) := by
  induction L generalizing g with
  | nil => exact h
  | cons i L ih => exact ih (update g i).1 (paramsInRange_update g i h)

theorem paramsInRange_newGame (cr : ℕ → CloudRand) (tr : ℕ → TreeRand) :
    paramsInRange (newGame cr tr) := by
  norm_num [paramsInRange, newGame]

/-- A game state with every parameter at a clamp boundary. -/
def gameC6 : Game :=
  ⟨[], [], 1, 400, 440, false, 0, 0, ⟨true, 20, 100, 100, -1, 2⟩, -1, 0, false⟩

/-- C6: under every finite sequence of inputs the tunable parameters never
leave their documented clamps (density in [0,1], foliage-count target in
[1,20], particle-count target in [0,100], shadow-intensity in [0.2,2.0]),
starting from `NewGame`'s initial state or any in-range state; and each
parameter saturates: an increment at the maximum leaves it at the maximum,
a decrement at the minimum leaves it at the minimum. -/
theorem c6_paramClamps :
    (∀ cr tr, paramsInRange (newGame cr tr)) ∧
    (∀ g L, paramsInRange g → paramsInRange (applyInputs g L)) ∧
    (∀ g inp, inp.down = false → g.menu.treeDensity = 20 →
      (update g inp).1.menu.treeDensity = 20) ∧
    (∀ g inp, inp.up = false → g.menu.treeDensity = 1 →
      (update g inp).1.menu.treeDensity = 1) ∧
    (∀ g inp, inp.left = false → g.menu.maxClouds = 100 → g.menu.cloudCount = 100 →
      (update g inp).1.menu.cloudCount = 100) ∧
    (∀ g inp, inp.right = false → g.menu.cloudCount = 0 →
      (update g inp).1.menu.cloudCount = 0) ∧
    (∀ g inp, inp.sKey = false → g.menu.treeShadow = 2 →
      (update g inp).1.menu.treeShadow = 2) ∧
    (∀ g inp, inp.dKey = false → g.menu.treeShadow = 0.2 →
      (update g inp).1.menu.treeShadow = 0.2) ∧
    (∀ g inp, inp.down = false → g.density = 1 → (update g inp).1.density = 1) ∧
    (∀ g inp, inp.up = false → g.density = 0 → (update g inp).1.density = 0) := by
  refine ⟨paramsInRange_newGame, paramsInRange_applyInputs, ?_, ?_, ?_, ?_, ?_, ?_, ?_, ?_⟩
  · intro g inp hk hv
    cases hesc : inp.escape
    · rw [update_menu_eq g inp hesc, menuControls_treeDensity, base_treeDensity, hv]
      simp only [hk, Bool.false_eq_true, if_false]; split_ifs <;> omega
    · rw [update_escape g inp hesc]; exact hv
  · intro g inp hk hv
    cases hesc : inp.escape
    · rw [update_menu_eq g inp hesc, menuControls_treeDensity, base_treeDensity, hv]
      simp only [hk, Bool.false_eq_true, if_false]; split_ifs <;> omega
    · rw [update_escape g inp hesc]; exact hv
  · intro g inp hk hv hv2
    cases hesc : inp.escape
    · rw [update_menu_eq g inp hesc, menuControls_cloudCount, base_cloudCount,
        base_maxClouds, hv, hv2]
      simp only [hk, Bool.false_eq_true, if_false]; split_ifs <;> omega
    · rw [update_escape g inp hesc]; exact hv2
  · intro g inp hk hv
    cases hesc : inp.escape
    · rw [update_menu_eq g inp hesc, menuControls_cloudCount, base_cloudCount,
        base_maxClouds, hv]
      simp only [hk, Bool.false_eq_true, if_false]; split_ifs <;> omega
    · rw [update_escape g inp hesc]; exact hv
  · intro g inp hk hv
    cases hesc : inp.escape
    · rw [update_menu_eq g inp hesc, menuControls_treeShadow, base_treeShadow, hv]
      simp only [hk, Bool.false_eq_true, if_false, min_def, max_def]
      split_ifs <;> norm_num at *
    · rw [update_escape g inp hesc]; exact hv
  · intro g inp hk hv
    cases hesc : inp.escape
    · rw [update_menu_eq g inp hesc, menuControls_treeShadow, base_treeShadow, hv]
      simp only [hk, Bool.false_eq_true, if_false, min_def, max_def]
      split_ifs <;> norm_num at *
    · rw [update_escape g inp hesc]; exact hv
  · intro g inp hk hv
    cases hesc : inp.escape
    · rw [update_density_eq g inp hesc, menuControls_density, base_density, hv]
      simp only [hk, Bool.false_eq_true, if_false, min_def, max_def]
      split_ifs <;> norm_num at *
    · rw [update_escape g inp hesc]; exact hv
  · intro g inp hk hv
    cases hesc : inp.escape
    · rw [update_density_eq g inp hesc, menuControls_density, base_density, hv]
      simp only [hk, Bool.false_eq_true, if_false, min_def, max_def]
      split_ifs <;> norm_num at *
    · rw [update_escape g inp hesc]; exact hv

/-- Witness for C6 at concrete states and inputs. -/
theorem c6_paramClamps_witness :
    paramsInRange (applyInputs (newGame (fun _ => ⟨0, 0, 0, 0, 0⟩) trNil) [inpNil]) ∧
    (update gameC6 inpNil).1.menu.treeDensity = 20 ∧
    (update gameC6 inpNil).1.menu.treeShadow = 2 ∧
    (update gameC6 inpNil).1.density = 1 :=
  ⟨c6_paramClamps.2.1 _ [inpNil] (c6_paramClamps.1 _ trNil),
    c6_paramClamps.2.2.1 gameC6 inpNil rfl rfl,
    c6_paramClamps.2.2.2.2.2.2.1 gameC6 inpNil rfl rfl,
    c6_paramClamps.2.2.2.2.2.2.2.2.1 gameC6 inpNil rfl rfl⟩


theorem update_sun_flag (g : Game) (inp : Input)
    (h : (update g inp).1.sunX ≠ g.sunX ∨ (update g inp).1.sunY ≠ g.sunY) :
    (update g inp).1.sunMoved = true := by
  cases hesc : inp.escape
  case true =>
    rw [update_escape g inp hesc] at h
    rcases h with h | h <;> exact absurd rfl h
  case false =>
    rw [update_fst g inp hesc] at h ⊢
    have hx : (mousePress inp (menuControls inp (moveClouds (toggleMenu inp g)))).sunX
        = g.sunX := by
      rw [mousePress_shape, menuControls_shape, moveClouds_shape, toggleMenu_shape]
    have hy : (mousePress inp (menuControls inp (moveClouds (toggleMenu inp g)))).sunY
        = g.sunY := by
      rw [mousePress_shape, menuControls_shape, moveClouds_shape, toggleMenu_shape]
    rcases mouseHold_sun_cases inp
        (mousePress inp (menuControls inp (moveClouds (toggleMenu inp g)))) with hm | ⟨ex, ey, _⟩
    · exact hm
    · rcases h with h | h
      · exact absurd (ex.trans hx) h
      · exact absurd (ey.trans hy) h

theorem draw_recomputeAll (g : Game) (h : g.sunMoved = true) :
    (draw g).trees = g.trees.map fun t =>
      { t with shadow := some (shadowArtOf g.sunX g.sunY g.menu.treeShadow t)
               shadowUpdated := true } := by
  show g.trees.map (drawTree g.sunX g.sunY g.menu.treeShadow g.sunMoved) = _
  rw [h]
  exact List.map_congr_left fun t _ => by simp [drawTree, ensureValid]

theorem update_intensity_flag (g : Game) (inp : Input)
    (h : (update g inp).1.menu.treeShadow ≠ g.menu.treeShadow) :
    (update g inp).1.sunMoved = true := by
  cases hesc : inp.escape
  case true =>
    rw [update_escape g inp hesc] at h
    exact absurd rfl h
  case false =>
    rw [update_menu_eq g inp hesc, menuControls_treeShadow, base_treeShadow] at h
    rw [update_fst g inp hesc]
    apply mouseHold_sunMoved_mono
    rw [mousePress_sunMoved, menuControls_sunMoved]
    by_cases hv : (moveClouds (toggleMenu inp g)).menu.visible = true
    · rw [if_pos hv] at h ⊢
      cases hd : inp.dKey
      · cases hs : inp.sKey
        · simp [hd, hs] at h
        · simp [hd, hs]
      · simp [hd]
    · rw [if_neg hv] at h
      exact absurd rfl h

theorem update_treeDrag_trees (g : Game) (inp : Input) (i : ℕ) (t : Tree)
    (hesc : inp.escape = false) (hup : inp.up = false) (hdown : inp.down = false)
    (hjp : inp.mouseJustPressed = false) (hp : inp.mousePressed = true)
    (hds : g.isDraggingSun = false) (hi : g.draggedTree = (i : ℤ))
    (ht : g.trees[i]? = some t)
    (hy : (inp.cursorY : ℚ) ≥ screenHeight - groundHeight + groundOffset) :
    (update g inp).1.trees = (g.trees.set i
      { t with x := (inp.cursorX : ℚ) - g.dragTreeStartX
               y := (inp.cursorY : ℚ)
               shadowUpdated := false }) := by
  have hBtrees : (moveClouds (toggleMenu inp g)).trees = g.trees := by
    rw [moveClouds_shape, toggleMenu_shape]
  have hCtrees : (menuControls inp (moveClouds (toggleMenu inp g))).trees = g.trees := by
    rw [menuControls_trees_id inp _ hup hdown, hBtrees]
  have hCds : (menuControls inp (moveClouds (toggleMenu inp g))).isDraggingSun = false := by
    rw [menuControls_shape, moveClouds_shape, toggleMenu_shape]; exact hds
  have hCdt : (menuControls inp (moveClouds (toggleMenu inp g))).draggedTree = (i : ℤ) := by
    rw [menuControls_shape, moveClouds_shape, toggleMenu_shape]; exact hi
  have hCdx : (menuControls inp (moveClouds (toggleMenu inp g))).dragTreeStartX
      = g.dragTreeStartX := by
    rw [menuControls_shape, moveClouds_shape, toggleMenu_shape]
  have hCt : (menuControls inp (moveClouds (toggleMenu inp g))).trees[i]? = some t := by
    rw [hCtrees]; exact ht
  rw [update_fst g inp hesc, mousePress_id inp _ hjp,
    mouseHold_treeDrag inp _ i t hp hCds hCdt hCt hy]
  show (menuControls inp (moveClouds (toggleMenu inp g))).trees.set i _ = _
  rw [hCtrees, hCdx]

theorem update_treeDrag_sunMoved (g : Game) (inp : Input) (i : ℕ) (t : Tree)
    (hesc : inp.escape = false) (hup : inp.up = false) (hdown : inp.down = false)
    (hs : inp.sKey = false) (hd : inp.dKey = false)
    (hjp : inp.mouseJustPressed = false) (hp : inp.mousePressed = true)
    (hds : g.isDraggingSun = false) (hi : g.draggedTree = (i : ℤ))
    (ht : g.trees[i]? = some t)
    (hy : (inp.cursorY : ℚ) ≥ screenHeight - groundHeight + groundOffset)
    (hsm : g.sunMoved = false) :
    (update g inp).1.sunMoved = false := by
  have hBtrees : (moveClouds (toggleMenu inp g)).trees = g.trees := by
    rw [moveClouds_shape, toggleMenu_shape]
  have hCtrees : (menuControls inp (moveClouds (toggleMenu inp g))).trees = g.trees := by
    rw [menuControls_trees_id inp _ hup hdown, hBtrees]
  have hCds : (menuControls inp (moveClouds (toggleMenu inp g))).isDraggingSun = false := by
    rw [menuControls_shape, moveClouds_shape, toggleMenu_shape]; exact hds
  have hCdt : (menuControls inp (moveClouds (toggleMenu inp g))).draggedTree = (i : ℤ) := by
    rw [menuControls_shape, moveClouds_shape, toggleMenu_shape]; exact hi
  have hCt : (menuControls inp (moveClouds (toggleMenu inp g))).trees[i]? = some t := by
    rw [hCtrees]; exact ht
  have hCsm : (menuControls inp (moveClouds (toggleMenu inp g))).sunMoved = false := by
    rw [menuControls_sunMoved]
    have hBsm : (moveClouds (toggleMenu inp g)).sunMoved = g.sunMoved := by
      rw [moveClouds_shape, toggleMenu_shape]
    simp [hup, hdown, hs, hd, hBsm, hsm]
  rw [update_fst g inp hesc, mousePress_id inp _ hjp,
    mouseHold_treeDrag inp _ i t hp hCds hCdt hCt hy]
  show (menuControls inp (moveClouds (toggleMenu inp g))).sunMoved = false
  exact hCsm

/-- C1: invalidation completeness of the shadow cache.  (1) Any tick that
changes the light position leaves the light-moved flag set, and (2) while it
is set, the draw step recomputes every tree's cached shadow, consistent with
the current (light position, intensity), before rendering it.  (3) Any tick
that changes the shadow-intensity parameter leaves the light-moved flag set,
invalidating every entity.  (4) A tick that only drags a single tree updates
and invalidates exactly that tree's cache: the light-moved flag stays clear
and every other entity is untouched. -/
theorem c1_invalidation :
    (∀ g inp, ((update g inp).1.sunX ≠ g.sunX ∨ (update g inp).1.sunY ≠ g.sunY) →
      (update g inp).1.sunMoved = true) ∧
    (∀ g : Game, g.sunMoved = true →
      (draw g).trees = g.trees.map fun t =>
        { t with shadow := some (shadowArtOf g.sunX g.sunY g.menu.treeShadow t)
                 shadowUpdated := true }) ∧
    (∀ g inp, (update g inp).1.menu.treeShadow ≠ g.menu.treeShadow →
      (update g inp).1.sunMoved = true) ∧
    (∀ (g : Game) (inp : Input) (i : ℕ) (t : Tree),
      inp.escape = false → inp.up = false → inp.down = false →
      inp.sKey = false → inp.dKey = false → inp.mouseJustPressed = false →
      inp.mousePressed = true → g.isDraggingSun = false → g.draggedTree = (i : ℤ) →
      g.trees[i]? = some t →
      (inp.cursorY : ℚ) ≥ screenHeight - groundHeight + groundOffset →
      g.sunMoved = false →
      (update g inp).1.trees = (g.trees.set i
        { t with x := (inp.cursorX : ℚ) - g.dragTreeStartX
                 y := (inp.cursorY : ℚ)
                 shadowUpdated := false }) ∧
      (update g inp).1.sunMoved = false ∧
      ∀ j : ℕ, j ≠ i → (update g inp).1.trees[j]? = g.trees[j]?) := by
  refine ⟨update_sun_flag, draw_recomputeAll, update_intensity_flag, ?_⟩
  intro g inp i t hesc hup hdown hs hd hjp hp hds hi ht hy hsm
  have h1 := update_treeDrag_trees g inp i t hesc hup hdown hjp hp hds hi ht hy
  refine ⟨h1,
    update_treeDrag_sunMoved g inp i t hesc hup hdown hs hd hjp hp hds hi ht hy hsm, ?_⟩
  intro j hj
  rw [h1]
  exact List.getElem?_set_ne fun hh => hj hh.symm

/-- Game in which the sun is currently grabbed. -/
def gameDrag : Game := { game0 with isDraggingSun := true }

/-- Input holding the mouse button with the cursor at (10,10). -/
def inpHold : Input := { inpNil with mousePressed := true, cursorX := 10, cursorY := 10 }

/-- Game in which tree 0 is currently grabbed. -/
def gameTd : Game := { game0 with draggedTree := 0 }

/-- Input holding the mouse button with the cursor at (200,500). -/
def inpTd : Input := { inpNil with mousePressed := true, cursorX := 200, cursorY := 500 }

/-- Input pressing only the D (increase shadow-intensity) key. -/
def inpD : Input := { inpNil with dKey := true }

/-- Witness for C1 at concrete drag and keypress ticks. -/
theorem c1_invalidation_witness :
    (update gameDrag inpHold).1.sunMoved = true ∧
    (draw { game0 with sunMoved := true }).trees =
      game0.trees.map (fun t =>
        { t with shadow := some (shadowArtOf game0.sunX game0.sunY game0.menu.treeShadow t)
                 shadowUpdated := true }) ∧
    (update gameC2 inpD).1.sunMoved = true ∧
    (update gameTd inpTd).1.trees = (gameTd.trees.set 0
      { tree0 with x := (inpTd.cursorX : ℚ) - gameTd.dragTreeStartX
                   y := (inpTd.cursorY : ℚ)
                   shadowUpdated := false }) ∧
    (update gameTd inpTd).1.sunMoved = false := by
  refine ⟨?_, ?_, ?_, ?_, ?_⟩
  · exact c1_invalidation.1 gameDrag inpHold (Or.inl (by
      norm_num [update, toggleMenu, moveClouds, menuControls, menuUp, menuDown, menuLeft,
        menuRight, menuS, menuD, densityUp, densityDown, mousePress, mouseHold,
        updateTreeCount, stepCloud, advanceX, inpHold, inpNil, gameDrag, game0, tree0,
        screenWidth, screenHeight, sunRadius, groundHeight, groundOffset, trNil,
        max_def, min_def]))
  · exact c1_invalidation.2.1 { game0 with sunMoved := true } rfl
  · exact c1_invalidation.2.2.1 gameC2 inpD (by
      norm_num [update, toggleMenu, moveClouds, menuControls, menuUp, menuDown, menuLeft,
        menuRight, menuS, menuD, densityUp, densityDown, mousePress, mouseHold,
        updateTreeCount, stepCloud, advanceX, inpD, inpNil, gameC2, treeC2,
        screenWidth, screenHeight, sunRadius, groundHeight, groundOffset, trNil,
        max_def, min_def])
  · exact (c1_invalidation.2.2.2 gameTd inpTd 0 tree0 rfl rfl rfl rfl rfl rfl rfl rfl rfl rfl
      (by norm_num [inpTd, inpNil, screenHeight, groundHeight, groundOffset]) rfl).1
  · exact (c1_invalidation.2.2.2 gameTd inpTd 0 tree0 rfl rfl rfl rfl rfl rfl rfl rfl rfl rfl
      (by norm_num [inpTd, inpNil, screenHeight, groundHeight, groundOffset]) rfl).2.1


theorem update_sunDrag (g : Game) (inp : Input) (hesc : inp.escape = false)
    (hjp : inp.mouseJustPressed = false) (hp : inp.mousePressed = true)
    (hds : g.isDraggingSun = true) :
    (update g inp).1.sunX =
      max sunRadius (min (screenWidth - sunRadius) ((inp.cursorX : ℚ) - g.dragStartX)) ∧
    (update g inp).1.sunY =
      max sunRadius
        (min (screenHeight - groundHeight - 10) ((inp.cursorY : ℚ) - g.dragStartY)) := by
  have hCds : (menuControls inp (moveClouds (toggleMenu inp g))).isDraggingSun = true := by
    rw [menuControls_shape, moveClouds_shape, toggleMenu_shape]; exact hds
  have hCx : (menuControls inp (moveClouds (toggleMenu inp g))).dragStartX = g.dragStartX := by
    rw [menuControls_shape, moveClouds_shape, toggleMenu_shape]
  have hCy : (menuControls inp (moveClouds (toggleMenu inp g))).dragStartY = g.dragStartY := by
    rw [menuControls_shape, moveClouds_shape, toggleMenu_shape]
  rw [update_fst g inp hesc, mousePress_id inp _ hjp, mouseHold_sunDrag inp _ hp hCds]
  constructor
  · show max sunRadius (min (screenWidth - sunRadius)
      ((inp.cursorX : ℚ) - (menuControls inp (moveClouds (toggleMenu inp g))).dragStartX)) = _
    rw [hCx]
  · show max sunRadius (min (screenHeight - groundHeight - 10)
      ((inp.cursorY : ℚ) - (menuControls inp (moveClouds (toggleMenu inp g))).dragStartY)) = _
    rw [hCy]

theorem update_treeDragBlocked_trees (g : Game) (inp : Input) (i : ℕ) (t : Tree)
    (hesc : inp.escape = false) (hup : inp.up = false) (hdown : inp.down = false)
    (hjp : inp.mouseJustPressed = false) (hp : inp.mousePressed = true)
    (hds : g.isDraggingSun = false) (hi : g.draggedTree = (i : ℤ))
    (ht : g.trees[i]? = some t)
    (hy : ¬ (inp.cursorY : ℚ) ≥ screenHeight - groundHeight + groundOffset) :
    (update g inp).1.trees = g.trees := by
  have hBtrees : (moveClouds (toggleMenu inp g)).trees = g.trees := by
    rw [moveClouds_shape, toggleMenu_shape]
  have hCtrees : (menuControls inp (moveClouds (toggleMenu inp g))).trees = g.trees := by
    rw [menuControls_trees_id inp _ hup hdown, hBtrees]
  have hCds : (menuControls inp (moveClouds (toggleMenu inp g))).isDraggingSun = false := by
    rw [menuControls_shape, moveClouds_shape, toggleMenu_shape]; exact hds
  have hCdt : (menuControls inp (moveClouds (toggleMenu inp g))).draggedTree = (i : ℤ) := by
    rw [menuControls_shape, moveClouds_shape, toggleMenu_shape]; exact hi
  have hCt : (menuControls inp (moveClouds (toggleMenu inp g))).trees[i]? = some t := by
    rw [hCtrees]; exact ht
  rw [update_fst g inp hesc, mousePress_id inp _ hjp,
    mouseHold_treeDragBlocked inp _ i t hp hCds hCdt hCt hy]
  exact hCtrees

/-- C8 (amended): while the pointer is held, a grabbed light is moved each
tick to the pointer position minus the recorded offset, clamped to its
bounding box ([sunRadius, screenWidth−sunRadius] × [sunRadius,
screenHeight−groundHeight−10]); a grabbed foliage entity is moved to
(pointer.x − recorded x-offset, pointer.y) ONLY when the pointer's y is at or
below the ground line — when the pointer is above the ground line the update
is skipped entirely (both coordinates keep their old values; the position is
not clamped to the ground line). -/
theorem c8_dragBehavior :
    (∀ g inp, inp.escape = false → inp.mouseJustPressed = false →
      inp.mousePressed = true → g.isDraggingSun = true →
      (update g inp).1.sunX =
        max sunRadius (min (screenWidth - sunRadius) ((inp.cursorX : ℚ) - g.dragStartX)) ∧
      (update g inp).1.sunY =
        max sunRadius
          (min (screenHeight - groundHeight - 10) ((inp.cursorY : ℚ) - g.dragStartY))) ∧
    (∀ (g : Game) (inp : Input) (i : ℕ) (t : Tree),
      inp.escape = false → inp.up = false → inp.down = false →
      inp.mouseJustPressed = false → inp.mousePressed = true →
      g.isDraggingSun = false → g.draggedTree = (i : ℤ) → g.trees[i]? = some t →
      (inp.cursorY : ℚ) ≥ screenHeight - groundHeight + groundOffset →
      (update g inp).1.trees = (g.trees.set i
        { t with x := (inp.cursorX : ℚ) - g.dragTreeStartX
                 y := (inp.cursorY : ℚ)
                 shadowUpdated := false })) ∧
    (∀ (g : Game) (inp : Input) (i : ℕ) (t : Tree),
      inp.escape = false → inp.up = false → inp.down = false →
      inp.mouseJustPressed = false → inp.mousePressed = true →
      g.isDraggingSun = false → g.draggedTree = (i : ℤ) → g.trees[i]? = some t →
      ¬ (inp.cursorY : ℚ) ≥ screenHeight - groundHeight + groundOffset →
      (update g inp).1.trees = g.trees) := by
  refine ⟨update_sunDrag, ?_, update_treeDragBlocked_trees⟩
  intro g inp i t hesc hup hdown hjp hp hds hi ht hy
  exact update_treeDrag_trees g inp i t hesc hup hdown hjp hp hds hi ht hy

/-- Input holding the mouse with the cursor at (200,400), above the ground
line. -/
def inpTdB : Input := { inpNil with mousePressed := true, cursorX := 200, cursorY := 400 }

/-- Counterexample to C8 as stated: with tree 0 (at (100,500)) grabbed and the
pointer at (200,400) — above the ground line — the code skips the update
entirely and leaves the tree at (100,500); the claim's "position updated to
pointer minus offset, clamped to stay at or below the ground line" would
instead give (200,470). -/
theorem c8_counterexample :
    ((update gameTd inpTdB).1.trees.map fun t => (t.x, t.y)) = [(100, 500)] ∧
    ¬ ((update gameTd inpTdB).1.trees.map fun t => (t.x, t.y)) = [((200 : ℚ), (470 : ℚ))] := by
  have h : (update gameTd inpTdB).1.trees = gameTd.trees := by
    refine update_treeDragBlocked_trees gameTd inpTdB 0 tree0 rfl rfl rfl rfl rfl rfl rfl rfl ?_
    norm_num [inpTdB, inpNil, screenHeight, groundHeight, groundOffset]
  rw [h]
  constructor
  · rfl
  · intro hc
    simp [gameTd, game0, tree0, Prod.ext_iff] at hc

/-- Witness for C8's amended theorem: the spec's own scenario — sun grabbed,
pointer dragged to (10,10) — lands on the clamped target (40,40), and a
blocked tree drag leaves the store unchanged. -/
theorem c8_dragBehavior_witness :
    (update gameDrag inpHold).1.sunX = 40 ∧
    (update gameDrag inpHold).1.sunY = 40 ∧
    (update gameTd inpTdB).1.trees = gameTd.trees := by
  have ha := c8_dragBehavior.1 gameDrag inpHold rfl rfl rfl rfl
  refine ⟨ha.1.trans ?_, ha.2.trans ?_, ?_⟩
  · norm_num [inpHold, inpNil, gameDrag, game0, sunRadius, screenWidth, max_def, min_def]
  · norm_num [inpHold, inpNil, gameDrag, game0, sunRadius, screenHeight, groundHeight,
      max_def, min_def]
  · exact c8_dragBehavior.2.2 gameTd inpTdB 0 tree0 rfl rfl rfl rfl rfl rfl rfl rfl
      (by norm_num [inpTdB, inpNil, screenHeight, groundHeight, groundOffset])


/-- `maxDistance` in drawCloud/calcTreeLighting/drawTree: the screen's bounding diagonal `math.Sqrt(screenWidth*screenWidth + screenHeight*screenHeight)`. -/
noncomputable def maxDistanceR : ℝ := Real.sqrt (800 * 800 + 600 * 600)

/-- Euclidean distance between light and target, as computed in `drawCloud` (`math.Sqrt(dx*dx + dy*dy)`). -/
noncomputable def distTo (lx ly px py : ℝ) : ℝ :=
  Real.sqrt ((px - lx) * (px - lx) + (py - ly) * (py - ly))

/-- `sunlightFactor` in `Game.drawCloud`: `math.Max(0, 1-(distanceToSun/maxDistance))`. -/
noncomputable def proximityFactor (lx ly px py : ℝ) : ℝ :=
  max 0 (1 - distTo lx ly px py / maxDistanceR)

theorem maxDistanceR_eq : maxDistanceR = 1000 := by
  rw [maxDistanceR, show (800 * 800 + 600 * 600 : ℝ) = 1000 ^ 2 by norm_num,
    Real.sqrt_sq (by norm_num)]

theorem sin_arg_abs (x y : ℝ) :
    |Real.sin (Complex.arg ⟨x, y⟩)| = |y| / Real.sqrt (x * x + y * y) := by
  rw [Complex.sin_arg]
  rw [show Complex.abs ⟨x, y⟩ = Real.sqrt (x * x + y * y) by
    rw [Complex.abs_apply, Complex.normSq_mk]]
  rw [show (Complex.mk x y).im = y from rfl, abs_div, abs_of_nonneg (Real.sqrt_nonneg _)]

/-- C7: the proximity factor `max(0, 1 - distance/maxScreenDiagonal)` lies in [0,1] for all positions, equals 1 when light and target coincide, equals 0 at separation equal to the screen diagonal (1000), is monotonically non-increasing in the distance everywhere, and strictly decreasing while the distance stays within the diagonal. -/
theorem c7_proximityFactor :
    (∀ lx ly px py, 0 ≤ proximityFactor lx ly px py ∧ proximityFactor lx ly px py ≤ 1) ∧
    (∀ lx ly, proximityFactor lx ly lx ly = 1) ∧
    (∀ lx ly px py, distTo lx ly px py = maxDistanceR → proximityFactor lx ly px py = 0) ∧
    (∀ lx ly px py qx qy, distTo lx ly px py ≤ distTo lx ly qx qy →
      proximityFactor lx ly qx qy ≤ proximityFactor lx ly px py) ∧
    (∀ lx ly px py qx qy, distTo lx ly px py < distTo lx ly qx qy →
      distTo lx ly qx qy ≤ maxDistanceR →
      proximityFactor lx ly qx qy < proximityFactor lx ly px py) := by
  have hdnn : ∀ lx ly px py, 0 ≤ distTo lx ly px py := fun _ _ _ _ => Real.sqrt_nonneg _
  refine ⟨?_, ?_, ?_, ?_, ?_⟩
  · intro lx ly px py
    constructor
    · exact le_max_left _ _
    · apply max_le (by norm_num)
      have h1 : 0 ≤ distTo lx ly px py / maxDistanceR := by
        apply div_nonneg (hdnn lx ly px py)
        rw [maxDistanceR_eq]; norm_num
      linarith
  · intro lx ly
    have h0 : distTo lx ly lx ly = 0 := by
      simp [distTo]
    rw [proximityFactor, h0, zero_div, sub_zero, max_eq_right (by norm_num : (0:ℝ) ≤ 1)]
  · intro lx ly px py h
    rw [proximityFactor, h, div_self (by rw [maxDistanceR_eq]; norm_num), sub_self,
      max_self]
  · intro lx ly px py qx qy h
    apply max_le_max le_rfl
    have : distTo lx ly px py / maxDistanceR ≤ distTo lx ly qx qy / maxDistanceR := by
      apply div_le_div_of_nonneg_right h  -- check name
      rw [maxDistanceR_eq]; norm_num
    linarith
  · intro lx ly px py qx qy h hle
    rw [maxDistanceR_eq] at hle
    have hq : proximityFactor lx ly qx qy = 1 - distTo lx ly qx qy / maxDistanceR := by
      rw [proximityFactor]
      apply max_eq_right
      rw [maxDistanceR_eq]
      have : distTo lx ly qx qy / 1000 ≤ 1 := by
        rw [div_le_one (by norm_num : (0:ℝ) < 1000)]; exact hle
      linarith
    have hlt : 1 - distTo lx ly qx qy / maxDistanceR
        < 1 - distTo lx ly px py / maxDistanceR := by
      rw [maxDistanceR_eq]
      have : distTo lx ly px py / 1000 < distTo lx ly qx qy / 1000 := by
        apply div_lt_div_of_pos_right h  -- check name
        norm_num
      linarith
    calc proximityFactor lx ly qx qy = 1 - distTo lx ly qx qy / maxDistanceR := hq
    _ < 1 - distTo lx ly px py / maxDistanceR := hlt
    _ ≤ proximityFactor lx ly px py := le_max_right _ _

/-- Witness for C7's monotonicity at concrete positions (distances 0 and 1000). -/
theorem c7_proximityFactor_witness :
    proximityFactor 0 0 600 800 < proximityFactor 0 0 0 0 := by
  have e2 : distTo 0 0 600 800 = 1000 := by
    rw [distTo, show ((600:ℝ) - 0) * (600 - 0) + (800 - 0) * (800 - 0) = 1000 ^ 2 by norm_num,
      Real.sqrt_sq (by norm_num)]
  have e1 : distTo 0 0 0 0 = 0 := by
    simp [distTo]
  exact c7_proximityFactor.2.2.2.2 0 0 0 0 600 800 (by rw [e1, e2]; norm_num)
    (by rw [e2, maxDistanceR_eq])

/-- `distanceToSun` in `Game.drawTree`. -/
noncomputable def distanceToSun (sunX sunY x y : ℝ) : ℝ :=
  Real.sqrt ((x - sunX) * (x - sunX) + (y - sunY) * (y - sunY))

/-- `shadowAngle := math.Atan2(tree.y-sunY, tree.x-sunX)`; `atan2(y,x)` is the argument of the complex number `x + y*I`. -/
noncomputable def shadowAngle (sunX sunY x y : ℝ) : ℝ :=
  Complex.arg ⟨x - sunX, y - sunY⟩

/-- `distanceFactor := math.Max(0.5, 1.0-distanceToSun/maxDistance) * 2.0` in `Game.drawTree`. -/
noncomputable def distanceFactor (sunX sunY x y : ℝ) : ℝ :=
  max 0.5 (1 - distanceToSun sunX sunY x y / maxDistanceR) * 2

/-- `heightFactor := math.Max(0.2, sunHeight/screenHeight)` with `sunHeight = screenHeight - sunY`. -/
noncomputable def heightFactor (sunY : ℝ) : ℝ :=
  max 0.2 ((600 - sunY) / 600)

/-- `verticalAngleFactor := math.Abs(math.Sin(shadowAngle))`. -/
noncomputable def verticalAngleFactor (sunX sunY x y : ℝ) : ℝ :=
  |Real.sin (shadowAngle sunX sunY x y)|

/-- The projected shadow length computed in `Game.drawTree`: `baseShadowLength * (1/heightFactor) * distanceFactor`, then `*= (0.3 + 0.7*verticalAngleFactor)`, then `*= treeShadow`, with `baseShadowLength = tree.size * 2`. A pure function of (light position, target position, size, intensity) by construction. -/
noncomputable def shadowLength (sunX sunY x y size intensity : ℝ) : ℝ :=
  size * 2 * (1 / heightFactor sunY) * distanceFactor sunX sunY x y *
    (0.3 + 0.7 * verticalAngleFactor sunX sunY x y) * intensity

theorem heightFactor_pos (sunY : ℝ) : 0 < heightFactor sunY :=
  lt_of_lt_of_le (by norm_num) (le_max_left _ _)

theorem verticalAngleFactor_vert (sx sy d : ℝ) (hd : 0 < d) :
    verticalAngleFactor sx sy sx (sy + d) = 1 := by
  rw [verticalAngleFactor, shadowAngle,
    show (⟨sx - sx, sy + d - sy⟩ : ℂ) = (⟨0, d⟩ : ℂ) from Complex.ext (by simp) (by ring_nf),
    sin_arg_abs, show (0 : ℝ) * 0 + d * d = d * d by ring, Real.sqrt_mul_self hd.le,
    abs_of_pos hd, div_self hd.ne']

theorem verticalAngleFactor_horiz (sx sy d : ℝ) :
    verticalAngleFactor sx sy (sx + d) sy = 0 := by
  rw [verticalAngleFactor, shadowAngle,
    show (⟨sx + d - sx, sy - sy⟩ : ℂ) = (⟨d, 0⟩ : ℂ) from Complex.ext (by ring_nf) (by simp),
    sin_arg_abs, abs_zero, zero_div]

theorem distanceToSun_vert (sx sy d : ℝ) (hd : 0 ≤ d) :
    distanceToSun sx sy sx (sy + d) = d := by
  rw [distanceToSun, show (sx - sx) * (sx - sx) + (sy + d - sy) * (sy + d - sy) = d * d by ring,
    Real.sqrt_mul_self hd]

theorem distanceToSun_horiz (sx sy d : ℝ) (hd : 0 ≤ d) :
    distanceToSun sx sy (sx + d) sy = d := by
  rw [distanceToSun, show (sx + d - sx) * (sx + d - sx) + (sy - sy) * (sy - sy) = d * d by ring,
    Real.sqrt_mul_self hd]

theorem shadowLength_vert (sx sy s i d : ℝ) (hd : 0 < d) :
    shadowLength sx sy sx (sy + d) s i =
      s * 2 * (1 / heightFactor sy) * (max 0.5 (1 - d / 1000) * 2) * 1 * i := by
  rw [shadowLength, distanceFactor, distanceToSun_vert sx sy d hd.le,
    verticalAngleFactor_vert sx sy d hd, maxDistanceR_eq]
  norm_num

theorem shadowLength_horiz (sx sy s i d : ℝ) (hd : 0 < d) :
    shadowLength sx sy (sx + d) sy s i =
      s * 2 * (1 / heightFactor sy) * (max 0.5 (1 - d / 1000) * 2) * 0.3 * i := by
  rw [shadowLength, distanceFactor, distanceToSun_horiz sx sy d hd.le,
    verticalAngleFactor_horiz sx sy d, maxDistanceR_eq]
  norm_num

/-- C4 (amended): the shadow length is a pure function of (light position, target position, base length, intensity); it scales linearly in the intensity parameter; at matched planar offset it is strictly longer when the light is lower (larger sunY, nearer the horizon); the verticality factor `0.3 + 0.7*|sin(bearing)|` makes near-VERTICAL bearings produce fuller shadows — a horizontal bearing at the same distance and light height gives a shadow at most as long as a vertical one; and concretely shadowLength(low, close) > shadowLength(high-overhead, close) for matched distances. -/
theorem c4_shadowLength :
    (∀ sx sy x y s i, shadowLength sx sy x y s i = shadowLength sx sy x y s 1 * i) ∧
    (∀ sx sy1 sy2 dx dy s i, 0 < s → 0 < i → sy2 < sy1 → sy2 < 480 →
      shadowLength sx sy2 (sx + dx) (sy2 + dy) s i
        < shadowLength sx sy1 (sx + dx) (sy1 + dy) s i) ∧
    (∀ sx sy s i d, 0 < d → 0 ≤ s → 0 ≤ i →
      shadowLength sx sy (sx + d) sy s i ≤ shadowLength sx sy sx (sy + d) s i) ∧
    (∀ s i, 0 < s → 0 < i →
      shadowLength 400 100 400 110 s i < shadowLength 400 500 400 510 s i) := by
  refine ⟨?_, ?_, ?_, ?_⟩
  · intro sx sy x y s i
    rw [shadowLength, shadowLength]; ring
  · intro sx sy1 sy2 dx dy s i hs hi h21 h480
    have hdist : ∀ sy : ℝ, distanceToSun sx sy (sx + dx) (sy + dy)
        = Real.sqrt (dx * dx + dy * dy) := by
      intro sy
      rw [distanceToSun]
      congr 1
      ring
    have hvert : ∀ sy : ℝ, verticalAngleFactor sx sy (sx + dx) (sy + dy)
        = |dy| / Real.sqrt (dx * dx + dy * dy) := by
      intro sy
      rw [verticalAngleFactor, shadowAngle,
        show (⟨sx + dx - sx, sy + dy - sy⟩ : ℂ) = (⟨dx, dy⟩ : ℂ) from
          Complex.ext (by ring_nf) (by ring_nf),
        sin_arg_abs]
    have hf2pos : 0 < heightFactor sy2 := heightFactor_pos sy2
    have hf1pos : 0 < heightFactor sy1 := heightFactor_pos sy1
    have hhf : heightFactor sy1 < heightFactor sy2 := by
      have hb : (0.2 : ℝ) < (600 - sy2) / 600 := by
        rw [lt_div_iff (by norm_num : (0:ℝ) < 600)]; linarith
      rw [heightFactor, heightFactor, max_eq_right hb.le]
      apply max_lt hb
      apply div_lt_div_of_pos_right (by linarith) (by norm_num)
    have hinv : 1 / heightFactor sy2 < 1 / heightFactor sy1 :=
      one_div_lt_one_div_of_lt hf1pos hhf
    have hdfpos : 0 < distanceFactor sx sy2 (sx + dx) (sy2 + dy) := by
      rw [distanceFactor]
      have : (0:ℝ) < max 0.5 (1 - distanceToSun sx sy2 (sx + dx) (sy2 + dy) / maxDistanceR) :=
        lt_of_lt_of_le (by norm_num) (le_max_left _ _)
      linarith
    have hvpos : 0 < 0.3 + 0.7 * verticalAngleFactor sx sy2 (sx + dx) (sy2 + dy) := by
      have : 0 ≤ verticalAngleFactor sx sy2 (sx + dx) (sy2 + dy) := abs_nonneg _
      linarith
    rw [shadowLength, shadowLength, distanceFactor, distanceFactor, hdist sy1, hdist sy2,
      hvert sy1, hvert sy2]
    have hC : (0:ℝ) < max 0.5 (1 - Real.sqrt (dx * dx + dy * dy) / maxDistanceR) * 2 := by
      have : (0:ℝ) < max 0.5 (1 - Real.sqrt (dx * dx + dy * dy) / maxDistanceR) :=
        lt_of_lt_of_le (by norm_num) (le_max_left _ _)
      linarith
    have hV : (0:ℝ) < 0.3 + 0.7 * (|dy| / Real.sqrt (dx * dx + dy * dy)) := by
      have h0 : (0:ℝ) ≤ |dy| / Real.sqrt (dx * dx + dy * dy) :=
        div_nonneg (abs_nonneg _) (Real.sqrt_nonneg _)
      linarith
    apply mul_lt_mul_of_pos_right _ hi
    apply mul_lt_mul_of_pos_right _ hV
    apply mul_lt_mul_of_pos_right _ hC
    exact mul_lt_mul_of_pos_left hinv (by linarith)
  · intro sx sy s i d hd hs hi
    rw [shadowLength_horiz sx sy s i d hd, shadowLength_vert sx sy s i d hd]
    have hfpos : 0 < heightFactor sy := heightFactor_pos sy
    have hC : (0:ℝ) ≤ s * 2 * (1 / heightFactor sy) * (max 0.5 (1 - d / 1000) * 2) := by
      have h1 : (0:ℝ) ≤ 1 / heightFactor sy := by positivity
      have h2 : (0:ℝ) ≤ max 0.5 (1 - d / 1000) * 2 := by
        have : (0:ℝ) ≤ max 0.5 (1 - d / 1000) := le_trans (by norm_num) (le_max_left _ _)
        linarith
      positivity
    calc s * 2 * (1 / heightFactor sy) * (max 0.5 (1 - d / 1000) * 2) * 0.3 * i
        ≤ s * 2 * (1 / heightFactor sy) * (max 0.5 (1 - d / 1000) * 2) * 1 * i := by
          apply mul_le_mul_of_nonneg_right _ hi
          nlinarith
    _ = _ := rfl
  · intro s i hs hi
    rw [show (110:ℝ) = 100 + 10 by norm_num, show (510:ℝ) = 500 + 10 by norm_num,
      shadowLength_vert 400 100 s i 10 (by norm_num),
      shadowLength_vert 400 500 s i 10 (by norm_num), heightFactor, heightFactor,
      show ((600:ℝ) - 100) / 600 = 5 / 6 by norm_num,
      show ((600:ℝ) - 500) / 600 = 1 / 6 by norm_num,
      max_eq_right (by norm_num : (0.2:ℝ) ≤ 5 / 6),
      max_eq_left (by norm_num : (1:ℝ) / 6 ≤ 0.2),
      max_eq_right (by norm_num : (0.5:ℝ) ≤ 1 - 10 / 1000)]
    have : (0:ℝ) < s * i := mul_pos hs hi
    nlinarith

/-- Counterexample to C4 as stated: at equal distance (10) and equal light height (sunY = 300), the near-horizontal bearing (tree at (410,300)) produces a strictly SHORTER shadow than the near-vertical bearing (tree at (400,310)) — the claim's \"near-horizontal bearings produce fuller shadows\" has the direction backwards (the factor is 0.3 versus 1.0). -/
theorem c4_counterexample :
    shadowLength 400 300 410 300 60 1 < shadowLength 400 300 400 310 60 1 := by
  rw [show (410:ℝ) = 400 + 10 by norm_num, show (310:ℝ) = 300 + 10 by norm_num,
    shadowLength_horiz 400 300 60 1 10 (by norm_num),
    shadowLength_vert 400 300 60 1 10 (by norm_num), heightFactor,
    show ((600:ℝ) - 300) / 600 = 1 / 2 by norm_num,
    max_eq_right (by norm_num : (0.2:ℝ) ≤ 1 / 2),
    max_eq_right (by norm_num : (0.5:ℝ) ≤ 1 - 10 / 1000)]
  norm_num

/-- Witness for C4's amended theorem at size 60, intensity 1. -/
theorem c4_shadowLength_witness :
    (0:ℝ) < 60 ∧ (0:ℝ) < 1 ∧
    shadowLength 400 100 400 110 60 1 < shadowLength 400 500 400 510 60 1 :=
  ⟨by norm_num, by norm_num,
    c4_shadowLength.2.2.2 60 1 (by norm_num) (by norm_num)⟩

end GoClouds
